import Mathlib

set_option maxHeartbeats 1000000

/-! Verification of the LLM provider adapters (OpenAIProvider and
OllamaProvider) of the vscode-llm-pair repository.  JavaScript strings are
modelled as lists of characters; fetch outcomes, response bodies and stream
chunks are supplied as explicit inputs; thrown JavaScript errors are modelled
by an explicit error type threaded through `Except`. -/

/-- A JavaScript string, modelled as its list of characters. -/
abbrev Str := List Char

/-- A thrown JavaScript error.  `isTypeError` records whether the thrown value
is an `instanceof TypeError` — the only distinction the adapter code ever
tests on a caught error. -/
structure JsErr where
  isTypeError : Bool
  msg : Str
deriving DecidableEq, Repr

/-- The result of a successful JSON.parse, as the adapter code observes it.
A number keeps its raw token text: the adapters only ever consult the
truthiness of a number, never its exact value. -/
inductive Json where
  | null
  | bool (b : Bool)
  | num (raw : Str)
  | str (s : Str)
  | arr (elems : List Json)
  | obj (fields : List (Str × Json))

/-- JSON's insignificant whitespace characters (RFC 8259). -/
def jsonWsChar (c : Char) : Bool :=
  c = ' ' || c = '\t' || c = '\n' || c = '\r'

/-- The characters stripped by JavaScript String.prototype.trim: the
WhiteSpace and LineTerminator code points, including the Unicode space
separators. -/
def jsWsChar (c : Char) : Bool :=
  c = '\u0009' || c = '\u000A' || c = '\u000B' || c = '\u000C' || c = '\u000D' ||
  c = '\u0020' || c = '\u00A0' || c = '\u1680' || c = '\u2000' || c = '\u2001' ||
  c = '\u2002' || c = '\u2003' || c = '\u2004' || c = '\u2005' || c = '\u2006' ||
  c = '\u2007' || c = '\u2008' || c = '\u2009' || c = '\u200A' || c = '\u2028' ||
  c = '\u2029' || c = '\u202F' || c = '\u205F' || c = '\u3000' || c = '\uFEFF'

/-- JavaScript String.prototype.trim. -/
def jsTrim (l : Str) : Str :=
  ((l.dropWhile jsWsChar).reverse.dropWhile jsWsChar).reverse

/-- JavaScript String.prototype.split with a one-character separator: every
occurrence splits, and empty segments are kept. -/
def splitOnChar (sep : Char) : Str → List Str
  | [] => [[]]
  | a :: rest =>
    if a = sep then [] :: splitOnChar sep rest
    else
      match splitOnChar sep rest with
      | [] => [[a]]
      | s :: ss => (a :: s) :: ss

/-- The opening curly bracket character. -/
def lbrace : Char := Char.ofNat 123

/-- The closing curly bracket character. -/
def rbrace : Char := Char.ofNat 125

/-- Skip JSON whitespace. -/
def skipWs : Str → Str
  | [] => []
  | c :: r => if jsonWsChar c then skipWs r else c :: r

/-- Decimal digit test. -/
def isDigit (c : Char) : Bool := '0' ≤ c && c ≤ '9'

/-- Hexadecimal digit test. -/
def isHexDigit (c : Char) : Bool :=
  isDigit c || ('a' ≤ c && c ≤ 'f') || ('A' ≤ c && c ≤ 'F')

/-- Value of a hexadecimal digit. -/
def hexVal (c : Char) : Nat :=
  if isDigit c then c.toNat - '0'.toNat
  else if 'a' ≤ c && c ≤ 'f' then c.toNat - 'a'.toNat + 10
  else c.toNat - 'A'.toNat + 10

/-- Parse the remainder of a JSON string literal, the opening quote already
consumed; returns the decoded characters and the remaining input.  Unescaped
control characters are rejected, as JSON.parse rejects them. -/
def parseStringRest : Nat → Str → Option (Str × Str)
  | 0, _ => none
  | _ + 1, [] => none
  | fuel + 1, c :: r =>
    if c = '\"' then some ([], r)
    else if c = '\\' then
      match r with
      | [] => none
      | e :: r2 =>
        let cont (ch : Char) (rest : Str) : Option (Str × Str) :=
          match parseStringRest fuel rest with
          | some (s, r3) => some (ch :: s, r3)
          | none => none
        if e = '\"' then cont '\"' r2
        else if e = '\\' then cont '\\' r2
        else if e = '/' then cont '/' r2
        else if e = 'b' then cont (Char.ofNat 8) r2
        else if e = 'f' then cont (Char.ofNat 12) r2
        else if e = 'n' then cont '\n' r2
        else if e = 'r' then cont '\r' r2
        else if e = 't' then cont '\t' r2
        else if e = 'u' then
          match r2 with
          | h1 :: h2 :: h3 :: h4 :: r3 =>
            if isHexDigit h1 && isHexDigit h2 && isHexDigit h3 && isHexDigit h4 then
              cont (Char.ofNat (((hexVal h1 * 16 + hexVal h2) * 16 + hexVal h3) * 16
                + hexVal h4)) r3
            else none
          | _ => none
        else none
    else if c.toNat < 0x20 then none
    else
      match parseStringRest fuel r with
      | some (s, r3) => some (c :: s, r3)
      | none => none

/-- Parse an optional JSON fraction part; returns its raw characters. -/
def parseFrac (s : Str) : Option (Str × Str) :=
  match s with
  | c :: r =>
    if c = '.' then
      let ds := r.takeWhile isDigit
      if ds.isEmpty then none else some ('.' :: ds, r.dropWhile isDigit)
    else some ([], c :: r)
  | [] => some ([], [])

/-- Parse an optional JSON exponent part; returns its raw characters. -/
def parseExp (s : Str) : Option (Str × Str) :=
  match s with
  | c :: r =>
    if c = 'e' ∨ c = 'E' then
      let (sg, r2) :=
        match r with
        | d :: rr => if d = '+' ∨ d = '-' then (([d] : Str), rr) else (([] : Str), d :: rr)
        | [] => (([] : Str), ([] : Str))
      let ds := r2.takeWhile isDigit
      if ds.isEmpty then none else some (c :: (sg ++ ds), r2.dropWhile isDigit)
    else some ([], c :: r)
  | [] => some ([], [])

/-- Parse a JSON number token positioned at the input head; returns the raw
token text.  A leading zero followed by further integer digits is rejected,
as JSON.parse rejects it. -/
def parseNumberTok (s : Str) : Option (Str × Str) :=
  let (sign, s1) :=
    match s with
    | c :: r => if c = '-' then ((['-'] : Str), r) else (([] : Str), c :: r)
    | [] => (([] : Str), ([] : Str))
  let intPart := s1.takeWhile isDigit
  let s2 := s1.dropWhile isDigit
  if intPart.isEmpty then none
  else if 1 < intPart.length ∧ intPart.headD 'x' = '0' then none
  else
    match parseFrac s2 with
    | none => none
    | some (fr, s3) =>
      match parseExp s3 with
      | none => none
      | some (ex, s4) => some (sign ++ intPart ++ fr ++ ex, s4)

mutual

/-- Parse one JSON value, skipping leading whitespace. -/
def parseVal : Nat → Str → Option (Json × Str)
  | 0, _ => none
  | fuel + 1, s =>
    match skipWs s with
    | [] => none
    | c :: r =>
      if c = lbrace then parseObjRest fuel r
      else if c = '[' then parseArrRest fuel r
      else if c = '\"' then
        match parseStringRest (r.length + 1) r with
        | some (cs, rest) => some (Json.str cs, rest)
        | none => none
      else if c = 't' then
        match r with
        | 'r' :: 'u' :: 'e' :: rest => some (Json.bool true, rest)
        | _ => none
      else if c = 'f' then
        match r with
        | 'a' :: 'l' :: 's' :: 'e' :: rest => some (Json.bool false, rest)
        | _ => none
      else if c = 'n' then
        match r with
        | 'u' :: 'l' :: 'l' :: rest => some (Json.null, rest)
        | _ => none
      else if c = '-' ∨ isDigit c then
        match parseNumberTok (c :: r) with
        | some (raw, rest) => some (Json.num raw, rest)
        | none => none
      else none

/-- Parse an array body, positioned just after the opening bracket. -/
def parseArrRest : Nat → Str → Option (Json × Str)
  | 0, _ => none
  | fuel + 1, s =>
    match skipWs s with
    | c :: r =>
      if c = ']' then some (Json.arr [], r)
      else
        match parseVal fuel (c :: r) with
        | some (v, s2) => parseArrLoop fuel [v] s2
        | none => none
    | [] => none

/-- Parse the continuation of an array after at least one element. -/
def parseArrLoop : Nat → List Json → Str → Option (Json × Str)
  | 0, _, _ => none
  | fuel + 1, acc, s =>
    match skipWs s with
    | c :: r =>
      if c = ']' then some (Json.arr acc.reverse, r)
      else if c = ',' then
        match parseVal fuel r with
        | some (v, s2) => parseArrLoop fuel (v :: acc) s2
        | none => none
      else none
    | [] => none

/-- Parse one object member: a string key, a colon, a value. -/
def parseMember : Nat → Str → Option ((Str × Json) × Str)
  | 0, _ => none
  | fuel + 1, s =>
    match skipWs s with
    | c :: r =>
      if c = '\"' then
        match parseStringRest (r.length + 1) r with
        | some (k, s2) =>
          match skipWs s2 with
          | ':' :: s3 =>
            match parseVal fuel s3 with
            | some (v, s4) => some ((k, v), s4)
            | none => none
          | _ => none
        | none => none
      else none
    | [] => none

/-- Parse an object body, positioned just after the opening bracket. -/
def parseObjRest : Nat → Str → Option (Json × Str)
  | 0, _ => none
  | fuel + 1, s =>
    match skipWs s with
    | c :: r =>
      if c = rbrace then some (Json.obj [], r)
      else
        match parseMember fuel (c :: r) with
        | some (kv, s2) => parseObjLoop fuel [kv] s2
        | none => none
    | [] => none

/-- Parse the continuation of an object after at least one member. -/
def parseObjLoop : Nat → List (Str × Json) → Str → Option (Json × Str)
  | 0, _, _ => none
  | fuel + 1, acc, s =>
    match skipWs s with
    | c :: r =>
      if c = rbrace then some (Json.obj acc.reverse, r)
      else if c = ',' then
        match parseMember fuel r with
        | some (kv, s2) => parseObjLoop fuel (kv :: acc) s2
        | none => none
      else none
    | [] => none

end

/-- JSON.parse: parse one value and require that only whitespace follows;
`none` models a thrown SyntaxError. -/
def jsonParse (s : Str) : Option Json :=
  match parseVal (2 * s.length + 4) s with
  | some (j, rest) => if (skipWs rest).isEmpty then some j else none
  | none => none

/-- JavaScript property access on a parsed JSON value: an object yields its
member (the last duplicate key wins, as in JSON.parse), every other value
yields undefined, modelled as `none`. -/
def jsGet (j : Json) (key : Str) : Option Json :=
  match j with
  | Json.obj fields =>
    match fields.reverse.find? (fun kv => kv.fst = key) with
    | some kv => some kv.snd
    | none => none
  | _ => none

/-- JavaScript truthiness of a parsed JSON value.  A number is truthy exactly
when its mantissa has a nonzero digit (floating-point underflow to zero is
not modelled). -/
def jsTruthy : Json → Bool
  | Json.null => false
  | Json.bool b => b
  | Json.str s => !s.isEmpty
  | Json.num raw =>
    (raw.takeWhile (fun c => !(c = 'e' || c = 'E'))).any (fun c => '1' ≤ c && c ≤ '9')
  | Json.arr _ => true
  | Json.obj _ => true

/-- Truthiness of a possibly-undefined value. -/
def optTruthy : Option Json → Bool
  | some v => jsTruthy v
  | none => false

/-- The expression data.message?.content: optional chaining on message (null
or undefined short-circuits to undefined), then plain property access. -/
def msgContent (j : Json) : Option Json :=
  match jsGet j ("message".data) with
  | some Json.null => none
  | some m => jsGet m ("content".data)
  | none => none

/-- The message of the error the Ollama adapter substitutes for any caught
TypeError. -/
def connectMsg : Str :=
  "Failed to connect to Ollama. Please ensure Ollama is running.".data

/-- The substituted connection error: a plain Error, not a TypeError. -/
def connectionError : JsErr := ⟨false, connectMsg⟩

/-- The catch block shared by every OllamaProvider method: a caught
TypeError is replaced by the connection error, everything else is
rethrown unchanged. -/
def ollamaCatch (e : JsErr) : JsErr :=
  if e.isTypeError then connectionError else e

/-- Outcome of a fetch whose response body is consumed as one text document.
A transport-level connection failure makes fetch reject with a TypeError. -/
inductive FetchText where
  | netErr (msg : Str)
  | resp (status : Nat) (statusText : Str) (bodyText : Str)

/-- Response.ok — true exactly for HTTP statuses 200 through 299. -/
def responseOk (status : Nat) : Bool := 200 ≤ status && status ≤ 299

/-- Model of response.json(): JSON.parse of the body text; a parse failure is
a thrown SyntaxError, which is not a TypeError. -/
def respJson (bodyText : Str) : Except JsErr Json :=
  match jsonParse bodyText with
  | some j => Except.ok j
  | none => Except.error ⟨false, "Unexpected token in JSON".data⟩

/-- The expression m.name for one element of data.models: property access on
null throws a TypeError, on any other value it yields the name member or
undefined. -/
def mapNamesList : List Json → Except JsErr (List (Option Json))
  | [] => Except.ok []
  | m :: rest =>
    match m with
    | Json.null => Except.error ⟨true, "Cannot read properties of null".data⟩
    | _ =>
      match mapNamesList rest with
      | Except.ok names => Except.ok (jsGet m ("name".data) :: names)
      | Except.error e => Except.error e

/-- The expression data.models.map(m => m.name): calling .map on undefined or
on a non-array value throws a TypeError. -/
def mapNames (models : Option Json) : Except JsErr (List (Option Json)) :=
  match models with
  | some (Json.arr elems) => mapNamesList elems
  | _ => Except.error ⟨true, "data.models.map is not a function".data⟩

/-- OllamaProvider.listModels, with the fetch outcome supplied as input: on a
non-ok status throw a fetch-failure error; otherwise parse the body and map
each model entry to its name; the catch block replaces a caught TypeError by
the connection error. -/
def listModels (f : FetchText) : Except JsErr (List (Option Json)) :=
  let attempt : Except JsErr (List (Option Json)) :=
    match f with
    | FetchText.netErr m => Except.error ⟨true, m⟩
    | FetchText.resp status statusText bodyText =>
      if !responseOk status then
        Except.error ⟨false, "Failed to fetch models: ".data ++ statusText⟩
      else
        match respJson bodyText with
        | Except.error e => Except.error e
        | Except.ok data => mapNames (jsGet data ("models".data))
  match attempt with
  | Except.error e => Except.error (ollamaCatch e)
  | Except.ok v => Except.ok v

/-- The completion result shape both providers return. -/
structure ChatCompletionResponse where
  content : Json
  finishReason : Option Str

/-- The finish tag "stop". -/
def stopStr : Str := "stop".data

/-- The expression data.message?.content || two-quotes: the chained value when
truthy, else the empty string. -/
def contentOrEmpty (v : Option Json) : Json :=
  match v with
  | some c => if jsTruthy c then c else Json.str []
  | none => Json.str []

/-- OllamaProvider.generateChatCompletion with the fetch outcome as input: on
a non-ok status throw an API error; otherwise parse the body as one JSON
object, degrade a missing or falsy message content to the empty string, and
map a truthy done field to the finish tag "stop"; the catch block replaces a
caught TypeError by the connection error. -/
def generateChatCompletion (f : FetchText) : Except JsErr ChatCompletionResponse :=
  let attempt : Except JsErr ChatCompletionResponse :=
    match f with
    | FetchText.netErr m => Except.error ⟨true, m⟩
    | FetchText.resp status statusText bodyText =>
      if !responseOk status then
        Except.error ⟨false, "Ollama API error: ".data ++ statusText⟩
      else
        match respJson bodyText with
        | Except.error e => Except.error e
        | Except.ok data =>
          Except.ok
            { content := contentOrEmpty (msgContent data)
              finishReason :=
                if optTruthy (jsGet data ("done".data)) then some stopStr else none }
  match attempt with
  | Except.error e => Except.error (ollamaCatch e)
  | Except.ok v => Except.ok v

/-- A streaming response: the HTTP envelope, the body as the sequence of text
chunks the reader delivers (none models a null body), and an optional error
with which reader.read() rejects after the chunks are exhausted. -/
structure StreamResp where
  status : Nat
  statusText : Str
  body : Option (List Str)
  readError : Option JsErr

/-- Outcome of the streaming fetch. -/
inductive FetchStream where
  | netErr (msg : Str)
  | resp (r : StreamResp)

/-- One line of the inner loop body: JSON.parse the line and, when the parsed
object carries a truthy message content, that content is forwarded to
onChunk; a parse failure yields nothing (the error is caught and logged). -/
def processLine (line : Str) : Option Json :=
  match jsonParse line with
  | none => none
  | some data =>
    match msgContent data with
    | some c => if jsTruthy c then some c else none
    | none => none

/-- chunk.split of newline, then filter(line => line.trim()): the candidate
lines of one chunk. -/
def candidateLines (chunk : Str) : List Str :=
  (splitOnChar '\n' chunk).filter (fun line => !(jsTrim line).isEmpty)

/-- The inner for-loop over the candidate lines of one chunk: each emitted
content is passed to the callback; an error the callback throws is caught by
the same per-line catch that swallows parse errors, so its result is
discarded and the loop continues.  Returns the arguments passed to the
callback, in order. -/
def runLines (cb : Json → Option JsErr) : List Str → List Json
  | [] => []
  | line :: rest =>
    match processLine line with
    | some c =>
      match cb c with
      | _ => c :: runLines cb rest
    | none => runLines cb rest

/-- The while-loop over the delivered chunks. -/
def decodeLoop (cb : Json → Option JsErr) : List Str → List Json
  | [] => []
  | chunk :: rest => runLines cb (candidateLines chunk) ++ decodeLoop cb rest

/-- Observable outcome of one streamChatCompletion call: the settled result,
the sequence of arguments passed to onChunk, and whether the body reader was
acquired and released. -/
structure StreamRun where
  result : Except JsErr Unit
  trace : List Json
  readerAcquired : Bool
  readerReleased : Bool

/-- OllamaProvider.streamChatCompletion with the fetch outcome as input: a
non-ok status or a null body rejects before the reader is acquired; otherwise
the reader is acquired, every chunk is split into candidate lines processed
by the inner loop, the finally block releases the reader on both the normal
and the error exit, and the catch block replaces a caught TypeError by the
connection error. -/
def streamChatCompletion (f : FetchStream) (cb : Json → Option JsErr) : StreamRun :=
  match f with
  | FetchStream.netErr m =>
    { result := Except.error (ollamaCatch ⟨true, m⟩), trace := [],
      readerAcquired := false, readerReleased := false }
  | FetchStream.resp r =>
    if !responseOk r.status then
      { result := Except.error (ollamaCatch ⟨false, "Ollama API error: ".data ++ r.statusText⟩),
        trace := [], readerAcquired := false, readerReleased := false }
    else
      match r.body with
      | none =>
        { result := Except.error (ollamaCatch ⟨false, "Response body is null".data⟩),
          trace := [], readerAcquired := false, readerReleased := false }
      | some chunks =>
        { result :=
            match r.readError with
            | some e => Except.error (ollamaCatch e)
            | none => Except.ok ()
          trace := decodeLoop cb chunks
          readerAcquired := true
          readerReleased := true }

/-- The message object of one OpenAI response choice. -/
structure OAIMessage where
  content : Option Str

/-- One choice of a non-streaming OpenAI response. -/
structure OAIChoice where
  message : Option OAIMessage
  finish_reason : Option Str

/-- A non-streaming OpenAI response as the vendor SDK resolves it. -/
structure OAIResponse where
  choices : List OAIChoice

/-- OpenAIProvider.generateChatCompletion, with the SDK response as input:
throw when choices[0] is absent, else return the first choice's content
(degrading a missing or empty content to the empty string) and its finish
reason.  No catch block: errors propagate unchanged. -/
def openaiGenerate (resp : OAIResponse) : Except JsErr ChatCompletionResponse :=
  match resp.choices.head? with
  | none => Except.error ⟨false, "No choices returned from OpenAI API".data⟩
  | some choice =>
    Except.ok
      { content :=
          Json.str
            (match choice.message with
             | some m =>
               match m.content with
               | some s => if s.isEmpty then [] else s
               | none => []
             | none => [])
        finishReason := choice.finish_reason }

/-- The delta object of one OpenAI stream chunk choice. -/
structure OAIDelta where
  content : Option Str

/-- One choice of an OpenAI stream chunk. -/
structure OAIStreamChoice where
  delta : Option OAIDelta

/-- One chunk of the OpenAI streaming response. -/
structure OAIChunk where
  choices : List OAIStreamChoice

/-- The expression chunk.choices[0] followed by choice?.delta?.content. -/
def oaiChunkContent (c : OAIChunk) : Option Str :=
  match c.choices.head? with
  | some choice =>
    match choice.delta with
    | some d => d.content
    | none => none
  | none => none

/-- OpenAIProvider.streamChatCompletion, with the chunk stream as input:
iterate the chunks, forwarding each truthy content delta to the callback; an
error thrown by the callback is not caught, so it aborts the iteration and
rejects the call.  Returns the settled result and the arguments passed to the
callback, in order. -/
def openaiStream (chunks : List OAIChunk) (cb : Str → Option JsErr) :
    Except JsErr Unit × List Str :=
  match chunks with
  | [] => (Except.ok (), [])
  | c :: rest =>
    match oaiChunkContent c with
    | some s =>
      if s.isEmpty then openaiStream rest cb
      else
        match cb s with
        | some e => (Except.error e, [s])
        | none =>
          match openaiStream rest cb with
          | (res, tr) => (res, s :: tr)
    | none => openaiStream rest cb

/-- Constructor configuration of the Ollama provider. -/
structure OllamaConfig where
  baseUrl : Str
  model : Str

/-- The private fields of an OllamaProvider instance; they are assigned only
in the constructor. -/
structure OllamaProvider where
  baseUrl : Str
  model : Str

/-- The OllamaProvider constructor. -/
def mkOllamaProvider (config : OllamaConfig) : OllamaProvider :=
  { baseUrl := config.baseUrl, model := config.model }

/-- OllamaProvider.getProviderName — pure, no field access. -/
def OllamaProvider.getProviderName (_ : OllamaProvider) : Str := "Ollama".data

/-- OllamaProvider.getModel — reads the model field. -/
def OllamaProvider.getModel (p : OllamaProvider) : Str := p.model

/-- OllamaProvider.listModels as a call on an instance: the method body never
assigns to a field of this, so the instance after the call is the instance
before it. -/
def OllamaProvider.listModelsCall (p : OllamaProvider) (f : FetchText) :
    Except JsErr (List (Option Json)) × OllamaProvider :=
  (listModels f, p)

/-- OllamaProvider.generateChatCompletion as a call on an instance. -/
def OllamaProvider.generateCall (p : OllamaProvider) (f : FetchText) :
    Except JsErr ChatCompletionResponse × OllamaProvider :=
  (generateChatCompletion f, p)

/-- OllamaProvider.streamChatCompletion as a call on an instance. -/
def OllamaProvider.streamCall (p : OllamaProvider) (f : FetchStream)
    (cb : Json → Option JsErr) : StreamRun × OllamaProvider :=
  (streamChatCompletion f cb, p)

/-- Constructor configuration of the OpenAI provider. -/
structure OpenAIConfig where
  apiKey : Str
  model : Str
  baseUrl : Option Str

/-- The private fields of an OpenAIProvider instance; they are assigned only
in the constructor. -/
structure OpenAIProvider where
  clientApiKey : Str
  clientBaseUrl : Option Str
  model : Str

/-- The OpenAIProvider constructor. -/
def mkOpenAIProvider (config : OpenAIConfig) : OpenAIProvider :=
  { clientApiKey := config.apiKey, clientBaseUrl := config.baseUrl,
    model := config.model }

/-- OpenAIProvider.getProviderName — pure, no field access. -/
def OpenAIProvider.getProviderName (_ : OpenAIProvider) : Str := "OpenAI".data

/-- OpenAIProvider.getModel — reads the model field. -/
def OpenAIProvider.getModel (p : OpenAIProvider) : Str := p.model

/-- OpenAIProvider.generateChatCompletion as a call on an instance: the
method body never assigns to a field of this. -/
def OpenAIProvider.generateCall (p : OpenAIProvider) (resp : OAIResponse) :
    Except JsErr ChatCompletionResponse × OpenAIProvider :=
  (openaiGenerate resp, p)

/-- OpenAIProvider.streamChatCompletion as a call on an instance. -/
def OpenAIProvider.streamCall (p : OpenAIProvider) (chunks : List OAIChunk)
    (cb : Str → Option JsErr) : (Except JsErr Unit × List Str) × OpenAIProvider :=
  (openaiStream chunks cb, p)

/-! Spec-side definitions and supporting lemmas for the stream decoder. -/

/-- Join a group of lines into one chunk, each line followed by a newline. -/
def joinLines (g : List Str) : Str :=
  (g.map (fun l => l ++ ['\n'])).flatten

/-- Spec-side reading of one stream line (following the spec's words): the
content value of a valid JSON line whose content is a string; the empty
string for any other line. -/
def specLineContent (line : Str) : Str :=
  match jsonParse line with
  | some j =>
    match msgContent j with
    | some (Json.str s) => s
    | _ => []
  | none => []

/-- The characters contributed by one forwarded fragment; a non-string value
contributes nothing to a concatenation. -/
def fragStr : Json → Str
  | Json.str s => s
  | _ => []

/-- The characters the decoder emits for one candidate line. -/
def emittedStr (line : Str) : Str :=
  match processLine line with
  | some c => fragStr c
  | none => []

/-- Decidable check that a line's forwarded content, if any, is a string. -/
def lineContentIsStr (line : Str) : Bool :=
  match processLine line with
  | some (Json.str _) => true
  | some _ => false
  | none => true

/-- The per-chunk emission of the OpenAI stream loop: the first choice's
delta content when truthy. -/
def oaiEmit (c : OAIChunk) : Option Str :=
  match oaiChunkContent c with
  | some s => if s.isEmpty then none else some s
  | none => none

/-- A callback that never throws. -/
def cbNone : Json → Option JsErr := fun _ => none

/-- A string callback that never throws. -/
def cbStrNone : Str → Option JsErr := fun _ => none

/-- A callback that throws a TypeError when handed the fragment "Hel". -/
def cbThrowHel : Json → Option JsErr := fun j =>
  match j with
  | Json.str s => if s = "Hel".data then some ⟨true, "boom".data⟩ else none
  | _ => none

/-- Example stream line carrying content "Hel". -/
def exLine1 : Str := "\x7b\"message\":\x7b\"content\":\"Hel\"\x7d\x7d".data

/-- Example stream line carrying content "lo". -/
def exLine2 : Str := "\x7b\"message\":\x7b\"content\":\"lo\"\x7d\x7d".data

/-- Example status-only stream line. -/
def exLine3 : Str := "\x7b\"done\":true\x7d".data

/-- A truncated, unparseable stream line. -/
def exBadLine : Str := "\x7b\"message\":\x7b\"content\":".data

/-- First chunk of the mid-line split of exLine1. -/
def exChunkA : Str := "\x7b\"message\":\x7b\"con".data

/-- Second chunk: the rest of exLine1, its newline, then exLine2 with its
newline. -/
def exChunkB : Str :=
  "tent\":\"Hel\"\x7d\x7d\n\x7b\"message\":\x7b\"content\":\"lo\"\x7d\x7d\n".data

/-- Example discovery body listing models "a" and "b". -/
def exModelsBody : Str :=
  "\x7b\"models\":[\x7b\"name\":\"a\"\x7d,\x7b\"name\":\"b\"\x7d]\x7d".data

/-- An empty JSON object body. -/
def exEmptyObjBody : Str := "\x7b\x7d".data

theorem runLines_eq_filterMap (cb : Json → Option JsErr) (ls : List Str) :
    runLines cb ls = ls.filterMap processLine := by
  induction ls with
  | nil => rfl
  | cons l rest ih =>
    cases h : processLine l <;> simp [runLines, h, ih, List.filterMap_cons]

theorem decodeLoop_eq (cb : Json → Option JsErr) (chunks : List Str) :
    decodeLoop cb chunks
      = (chunks.map (fun ch => (candidateLines ch).filterMap processLine)).flatten := by
  induction chunks with
  | nil => rfl
  | cons ch rest ih => simp [decodeLoop, runLines_eq_filterMap, ih]

theorem splitOnChar_of_not_mem {sep : Char} {l : Str} (h : sep ∉ l) :
    splitOnChar sep l = [l] := by
  induction l with
  | nil => rfl
  | cons a rest ih =>
    have ha : ¬ a = sep := fun hh => h (hh ▸ List.mem_cons_self a rest)
    have hrest : sep ∉ rest := fun hm => h (List.mem_cons_of_mem a hm)
    simp [splitOnChar, ha, ih hrest]

theorem splitOnChar_append {sep : Char} {l r : Str} (h : sep ∉ l) :
    splitOnChar sep (l ++ sep :: r) = l :: splitOnChar sep r := by
  induction l with
  | nil => simp [splitOnChar]
  | cons a rest ih =>
    have ha : ¬ a = sep := fun hh => h (hh ▸ List.mem_cons_self a rest)
    have hrest : sep ∉ rest := fun hm => h (List.mem_cons_of_mem a hm)
    simp [splitOnChar, ha, ih hrest]

theorem splitOnChar_joinLines {g : List Str} (h : ∀ l ∈ g, ('\n' : Char) ∉ l) :
    splitOnChar '\n' (joinLines g) = g ++ [[]] := by
  induction g with
  | nil => rfl
  | cons l rest ih =>
    have h1 : ('\n' : Char) ∉ l := h l (List.mem_cons_self _ _)
    have h2 : ∀ x ∈ rest, ('\n' : Char) ∉ x := fun x hx => h x (List.mem_cons_of_mem _ hx)
    have hj : joinLines (l :: rest) = l ++ '\n' :: joinLines rest := by
      simp [joinLines]
    rw [hj, splitOnChar_append h1, ih h2]
    rfl

theorem jsTrim_nil {l : Str} (h : jsTrim l = []) : ∀ c ∈ l, jsWsChar c = true := by
  intro c hc
  unfold jsTrim at h
  rw [List.reverse_eq_nil_iff, List.dropWhile_eq_nil_iff] at h
  have hd : ∀ x ∈ l.dropWhile jsWsChar, jsWsChar x = true := by
    intro x hx
    exact h x (List.mem_reverse.mpr hx)
  have hsplit : c ∈ l.takeWhile jsWsChar ++ l.dropWhile jsWsChar := by
    rw [List.takeWhile_append_dropWhile]
    exact hc
  rcases List.mem_append.mp hsplit with h1 | h2
  · exact List.mem_takeWhile_imp h1
  · exact hd c h2

theorem skipWs_ws {l : Str} (h : ∀ c ∈ l, jsWsChar c = true) :
    skipWs l = [] ∨ ∃ c r, skipWs l = c :: r ∧ jsWsChar c = true := by
  induction l with
  | nil => exact Or.inl rfl
  | cons c rest ih =>
    by_cases hj : jsonWsChar c
    · have := ih fun x hx => h x (List.mem_cons_of_mem _ hx)
      simpa [skipWs, hj] using this
    · exact Or.inr ⟨c, rest, by simp [skipWs, hj], h c (List.mem_cons_self _ _)⟩

theorem jsWsChar_eq {c : Char} (h : jsWsChar c = true) :
    c = '\u0009' ∨ c = '\u000A' ∨ c = '\u000B' ∨ c = '\u000C' ∨
    c = '\u000D' ∨ c = '\u0020' ∨ c = '\u00A0' ∨ c = '\u1680' ∨
    c = '\u2000' ∨ c = '\u2001' ∨ c = '\u2002' ∨ c = '\u2003' ∨
    c = '\u2004' ∨ c = '\u2005' ∨ c = '\u2006' ∨ c = '\u2007' ∨
    c = '\u2008' ∨ c = '\u2009' ∨ c = '\u200A' ∨ c = '\u2028' ∨
    c = '\u2029' ∨ c = '\u202F' ∨ c = '\u205F' ∨ c = '\u3000' ∨
    c = '\uFEFF' := by
  simpa [jsWsChar, Bool.or_eq_true, decide_eq_true_eq, or_assoc] using h

theorem parseVal_ws {l : Str} (h : ∀ c ∈ l, jsWsChar c = true) (fuel : Nat) :
    parseVal fuel l = none := by
  cases fuel with
  | zero => rfl
  | succ f =>
    rcases skipWs_ws h with h0 | ⟨c, r, heq, hws⟩
    · simp [parseVal, h0]
    · simp only [parseVal]
      rw [heq]
      rcases jsWsChar_eq hws with rfl|rfl|rfl|rfl|rfl|rfl|rfl|rfl|rfl|rfl|rfl|rfl|rfl|rfl|rfl|rfl|rfl|rfl|rfl|rfl|rfl|rfl|rfl|rfl|rfl <;> rfl

theorem jsonParse_ws {l : Str} (h : ∀ c ∈ l, jsWsChar c = true) : jsonParse l = none := by
  unfold jsonParse
  rw [parseVal_ws h]

theorem processLine_blank {l : Str} (h : (jsTrim l).isEmpty = true) :
    processLine l = none := by
  have h2 : jsTrim l = [] := List.isEmpty_iff.mp h
  unfold processLine
  rw [jsonParse_ws (jsTrim_nil h2)]

theorem candidateLines_joinLines {g : List Str} (h : ∀ l ∈ g, ('\n' : Char) ∉ l) :
    candidateLines (joinLines g) = g.filter (fun line => !(jsTrim line).isEmpty) := by
  unfold candidateLines
  rw [splitOnChar_joinLines h, List.filter_append]
  have hnil : List.filter (fun line => !(jsTrim line).isEmpty) [([] : Str)] = [] := rfl
  rw [hnil, List.append_nil]

theorem filterMap_filter_blank (g : List Str) :
    (g.filter (fun line => !(jsTrim line).isEmpty)).filterMap processLine
      = g.filterMap processLine := by
  induction g with
  | nil => rfl
  | cons l rest ih =>
    by_cases h : (jsTrim l).isEmpty = true
    · simp [List.filter_cons, h, List.filterMap_cons, processLine_blank h, ih]
    · simp [List.filter_cons, h, List.filterMap_cons, ih]

theorem decodeLoop_line_aligned (cb : Json → Option JsErr) (groups : List (List Str))
    (h : ∀ l ∈ groups.flatten, ('\n' : Char) ∉ l) :
    decodeLoop cb (groups.map joinLines) = groups.flatten.filterMap processLine := by
  induction groups with
  | nil => rfl
  | cons g rest ih =>
    have hg : ∀ l ∈ g, ('\n' : Char) ∉ l := fun l hl => h l (by simp [hl])
    have hr : ∀ l ∈ rest.flatten, ('\n' : Char) ∉ l := fun l hl => h l (by simp [hl])
    simp only [List.map_cons, decodeLoop, List.flatten_cons, List.filterMap_append]
    rw [runLines_eq_filterMap, candidateLines_joinLines hg, filterMap_filter_blank, ih hr]

theorem trace_concat (ls : List Str) :
    ((ls.filterMap processLine).map fragStr).flatten = (ls.map emittedStr).flatten := by
  induction ls with
  | nil => rfl
  | cons l rest ih =>
    cases h : processLine l <;> simp [List.filterMap_cons, h, emittedStr, ih]

theorem emittedStr_eq_spec {l : Str} (h : lineContentIsStr l = true) :
    emittedStr l = specLineContent l := by
  unfold lineContentIsStr processLine at h
  unfold emittedStr specLineContent processLine
  cases hp : jsonParse l with
  | none => simp [hp]
  | some j =>
    simp only [hp] at h ⊢
    cases hc : msgContent j with
    | none => simp [hc]
    | some c =>
      simp only [hc] at h ⊢
      by_cases ht : jsTruthy c = true
      · simp only [ht, if_true] at h ⊢
        cases c <;> simp_all [fragStr]
      · rw [if_neg ht] at h ⊢
        cases c with
        | str s =>
          have hs : s = [] := by
            simp [jsTruthy, List.isEmpty_iff] at ht
            exact ht
          subst hs
          rfl
        | null => rfl
        | bool b => rfl
        | num raw => rfl
        | arr a => rfl
        | obj o => rfl

theorem processLine_truthy {line : Str} {j : Json} (h : processLine line = some j) :
    jsTruthy j = true := by
  unfold processLine at h
  cases hp : jsonParse line with
  | none => rw [hp] at h; exact absurd h (by simp)
  | some d =>
    simp only [hp] at h
    cases hc : msgContent d with
    | none => simp only [hc] at h; exact absurd h (by simp)
    | some c =>
      simp only [hc] at h
      by_cases ht : jsTruthy c = true
      · rw [if_pos ht] at h
        cases h
        exact ht
      · rw [if_neg ht] at h
        exact absurd h (by simp)

/-- C1 (corrected): the decoder splits each arriving chunk into lines
independently, with no buffer carried across chunks, so a JSON line split
across a chunk boundary is dropped.  On the claim's own example — the two
lines carrying "Hel" and "lo", split mid-first-line into two chunks — the
fragments forwarded to onFragment concatenate to "lo", not to "Hello", even
though the chunks concatenate exactly to the two newline-terminated lines. -/
theorem c1_counterexample :
    exChunkA ++ exChunkB = joinLines [exLine1, exLine2] ∧
    ((streamChatCompletion
        (FetchStream.resp ⟨200, "OK".data, some [exChunkA, exChunkB], none⟩)
        cbNone).trace.map fragStr).flatten = "lo".data ∧
    ([exLine1, exLine2].map specLineContent).flatten = "Hello".data ∧
    ("lo".data : Str) ≠ "Hello".data := by
  refine ⟨rfl, rfl, rfl, by decide⟩

/-- C1 (amended): when every chunk boundary falls on a line boundary — each
chunk is a group of whole newline-terminated lines — the concatenation of the
fragments passed to onFragment equals the concatenation of the content values
of every valid JSON line of the original stream, in original order; a line
split across a chunk boundary is instead dropped, as the counterexample
shows. -/
theorem c1_line_aligned_concat (groups : List (List Str)) (st : Nat) (stx : Str)
    (cb : Json → Option JsErr)
    (hok : responseOk st = true)
    (hnl : ∀ l ∈ groups.flatten, ('\n' : Char) ∉ l)
    (hstr : ∀ l ∈ groups.flatten, lineContentIsStr l = true) :
    (streamChatCompletion
        (FetchStream.resp ⟨st, stx, some (groups.map joinLines), none⟩) cb).result
      = Except.ok () ∧
    ((streamChatCompletion
        (FetchStream.resp ⟨st, stx, some (groups.map joinLines), none⟩)
        cb).trace.map fragStr).flatten
      = (groups.flatten.map specLineContent).flatten := by
  have hrun : streamChatCompletion
      (FetchStream.resp ⟨st, stx, some (groups.map joinLines), none⟩) cb
      = ⟨Except.ok (), decodeLoop cb (groups.map joinLines), true, true⟩ := by
    simp [streamChatCompletion, hok]
  rw [hrun]
  refine ⟨rfl, ?_⟩
  show ((decodeLoop cb (groups.map joinLines)).map fragStr).flatten = _
  rw [decodeLoop_line_aligned cb groups hnl, trace_concat]
  exact congrArg List.flatten
    (List.map_congr_left fun l hl => emittedStr_eq_spec (hstr l hl))

/-- Witness for C1 (amended) at a concrete three-line, two-chunk stream. -/
theorem c1_witness :
    responseOk 200 = true ∧
    (∀ l ∈ [[exLine1], [exLine2, exLine3]].flatten, ('\n' : Char) ∉ l) ∧
    (∀ l ∈ [[exLine1], [exLine2, exLine3]].flatten, lineContentIsStr l = true) ∧
    ((streamChatCompletion
        (FetchStream.resp
          ⟨200, "OK".data, some ([[exLine1], [exLine2, exLine3]].map joinLines), none⟩)
        cbNone).result = Except.ok () ∧
     ((streamChatCompletion
        (FetchStream.resp
          ⟨200, "OK".data, some ([[exLine1], [exLine2, exLine3]].map joinLines), none⟩)
        cbNone).trace.map fragStr).flatten
       = ([[exLine1], [exLine2, exLine3]].flatten.map specLineContent).flatten) :=
  ⟨by decide, by decide, by decide,
    c1_line_aligned_concat [[exLine1], [exLine2, exLine3]] 200 ("OK".data) cbNone
      (by decide) (by decide) (by decide)⟩

/-- C2: a candidate line that fails JSON parsing raises no error and does not
abort the stream: the call still resolves successfully and the trace is
exactly the emissions of the surrounding lines — every subsequent valid line
is still parsed and forwarded. -/
theorem c2_parse_failure_skipped (ls1 ls2 : List Str) (bad : Str) (st : Nat)
    (stx : Str) (cb : Json → Option JsErr)
    (hok : responseOk st = true)
    (hbad : jsonParse bad = none)
    (hnl : ∀ l ∈ ls1 ++ bad :: ls2, ('\n' : Char) ∉ l) :
    (streamChatCompletion
        (FetchStream.resp ⟨st, stx, some [joinLines (ls1 ++ bad :: ls2)], none⟩)
        cb).result = Except.ok () ∧
    (streamChatCompletion
        (FetchStream.resp ⟨st, stx, some [joinLines (ls1 ++ bad :: ls2)], none⟩)
        cb).trace = ls1.filterMap processLine ++ ls2.filterMap processLine := by
  have hrun : streamChatCompletion
      (FetchStream.resp ⟨st, stx, some [joinLines (ls1 ++ bad :: ls2)], none⟩) cb
      = ⟨Except.ok (), decodeLoop cb [joinLines (ls1 ++ bad :: ls2)], true, true⟩ := by
    simp [streamChatCompletion, hok]
  rw [hrun]
  refine ⟨rfl, ?_⟩
  have h1 : ∀ l ∈ [ls1 ++ bad :: ls2].flatten, ('\n' : Char) ∉ l := by
    simpa using hnl
  have hdec := decodeLoop_line_aligned cb [ls1 ++ bad :: ls2] h1
  simp only [List.map_cons, List.map_nil, List.flatten_cons, List.flatten_nil,
    List.append_nil] at hdec
  show decodeLoop cb [joinLines (ls1 ++ bad :: ls2)] = _
  rw [hdec, List.filterMap_append, List.filterMap_cons]
  have hpl : processLine bad = none := by
    unfold processLine
    rw [hbad]
  simp [hpl]

/-- Witness for C2 at a concrete stream with a truncated middle line. -/
theorem c2_witness :
    responseOk 200 = true ∧ jsonParse exBadLine = none ∧
    ((streamChatCompletion
        (FetchStream.resp
          ⟨200, "OK".data, some [joinLines ([exLine1] ++ exBadLine :: [exLine2])], none⟩)
        cbNone).result = Except.ok () ∧
     (streamChatCompletion
        (FetchStream.resp
          ⟨200, "OK".data, some [joinLines ([exLine1] ++ exBadLine :: [exLine2])], none⟩)
        cbNone).trace
       = [exLine1].filterMap processLine ++ [exLine2].filterMap processLine) :=
  ⟨by decide, rfl,
    c2_parse_failure_skipped [exLine1] [exLine2] exBadLine 200 ("OK".data) cbNone
      (by decide) rfl (by decide)⟩

theorem fetchErr_ne_connect (stx : Str) :
    ("Failed to fetch models: ".data ++ stx) ≠ connectMsg := by
  intro h
  have h10 : ("Failed to fetch models: ".data ++ stx)[10]? = connectMsg[10]? := by rw [h]
  rw [List.getElem?_append, if_pos (by decide)] at h10
  exact absurd h10 (by decide)

/-- C3 (corrected): response.ok is true for every 2xx status, not only 200,
so a 201 response with a well-formed body succeeds instead of failing with a
BackendError — refuting the claim's "on a non-200 HTTP status it fails". -/
theorem c3_counterexample :
    listModels (FetchText.resp 201 ("Created".data) exModelsBody)
      = Except.ok [some (Json.str "a".data), some (Json.str "b".data)] := rfl

/-- C3 (amended): listModels on a 200 response with the two-model body
returns the ordered names a, b; on a transport-level connection failure it
fails with the ConnectionError saying the local service is not running; on a
non-2xx (rather than non-200) status it fails with the BackendError carrying
the status text, propagated unchanged — in particular it is not the
ConnectionError. -/
theorem c3_list_models (stx : Str) :
    (listModels (FetchText.resp 200 stx exModelsBody)
        = Except.ok [some (Json.str "a".data), some (Json.str "b".data)]) ∧
    (∀ m, listModels (FetchText.netErr m)
        = Except.error
            ⟨false, "Failed to connect to Ollama. Please ensure Ollama is running.".data⟩) ∧
    (∀ st body, responseOk st = false →
        listModels (FetchText.resp st stx body)
            = Except.error ⟨false, "Failed to fetch models: ".data ++ stx⟩ ∧
          (⟨false, "Failed to fetch models: ".data ++ stx⟩ : JsErr) ≠ connectionError) := by
  refine ⟨rfl, fun m => rfl, fun st body hst => ⟨?_, ?_⟩⟩
  · simp [listModels, hst, ollamaCatch]
  · intro h
    exact fetchErr_ne_connect stx (congrArg JsErr.msg h)

/-- Witness for C3 (amended) at status 500 and a concrete status text. -/
theorem c3_witness :
    (listModels (FetchText.resp 200 ("OK".data) exModelsBody)
        = Except.ok [some (Json.str "a".data), some (Json.str "b".data)]) ∧
    (listModels (FetchText.netErr ("fetch failed".data))
        = Except.error
            ⟨false, "Failed to connect to Ollama. Please ensure Ollama is running.".data⟩) ∧
    responseOk 500 = false ∧
    (listModels (FetchText.resp 500 ("OK".data) ("oops".data))
        = Except.error ⟨false, "Failed to fetch models: ".data ++ "OK".data⟩ ∧
      (⟨false, "Failed to fetch models: ".data ++ "OK".data⟩ : JsErr) ≠ connectionError) :=
  ⟨(c3_list_models ("OK".data)).1,
   (c3_list_models ("OK".data)).2.1 ("fetch failed".data),
   by decide,
   (c3_list_models ("OK".data)).2.2 500 ("oops".data) (by decide)⟩

/-- C4: the hosted-API adapter's non-streaming call fails hard with the
ProtocolError on a zero-choice response — never a degraded empty-content
result — while the local adapter degrades an absent content field to the
empty string; the asymmetry is preserved. -/
theorem c4_zero_choices_hard_failure :
    (∀ resp : OAIResponse, resp.choices = [] →
        openaiGenerate resp
          = Except.error ⟨false, "No choices returned from OpenAI API".data⟩) ∧
    generateChatCompletion (FetchText.resp 200 ("OK".data) exEmptyObjBody)
      = Except.ok ⟨Json.str [], none⟩ := by
  refine ⟨fun resp h => ?_, rfl⟩
  simp [openaiGenerate, h]

/-- Witness for C4 at the empty choice list. -/
theorem c4_witness :
    openaiGenerate ⟨[]⟩
      = Except.error ⟨false, "No choices returned from OpenAI API".data⟩ :=
  c4_zero_choices_hard_failure.1 ⟨[]⟩ rfl

theorem openaiStream_pure (chunks : List OAIChunk) (cb : Str → Option JsErr)
    (h : ∀ s, cb s = none) :
    openaiStream chunks cb = (Except.ok (), chunks.filterMap oaiEmit) := by
  induction chunks with
  | nil => rfl
  | cons c rest ih =>
    cases hc : oaiChunkContent c with
    | none => simp [openaiStream, hc, List.filterMap_cons, oaiEmit, ih]
    | some s =>
      by_cases hs : s.isEmpty = true
      · simp [openaiStream, hc, hs, List.filterMap_cons, oaiEmit, ih]
      · simp [openaiStream, hc, hs, h s, List.filterMap_cons, oaiEmit, ih]

theorem oaiEmit_nonempty {c : OAIChunk} {s : Str} (h : oaiEmit c = some s) :
    s ≠ [] := by
  unfold oaiEmit at h
  cases hc : oaiChunkContent c with
  | none => rw [hc] at h; exact absurd h (by simp)
  | some t =>
    simp only [hc] at h
    by_cases ht : t.isEmpty = true
    · rw [if_pos ht] at h; exact absurd h (by simp)
    · rw [if_neg ht] at h
      cases h
      simpa [List.isEmpty_iff] using ht

/-- C6: for both adapters the callback receives only truthy (non-empty)
fragments, exactly the canonical per-chunk emissions in arrival order with
none skipped or reordered, and a stream delivering zero fragments resolves
successfully with no callback invocation. -/
theorem c6_fragment_discipline :
    (∀ (st : Nat) (stx : Str) (chunks : List Str) (cb : Json → Option JsErr),
        responseOk st = true →
        (streamChatCompletion (FetchStream.resp ⟨st, stx, some chunks, none⟩) cb).result
            = Except.ok () ∧
        (streamChatCompletion (FetchStream.resp ⟨st, stx, some chunks, none⟩) cb).trace
            = (chunks.map fun ch => (candidateLines ch).filterMap processLine).flatten ∧
        (∀ j ∈ (streamChatCompletion
            (FetchStream.resp ⟨st, stx, some chunks, none⟩) cb).trace,
          jsTruthy j = true)) ∧
    (∀ (chunks : List OAIChunk) (cb : Str → Option JsErr), (∀ s, cb s = none) →
        (openaiStream chunks cb).fst = Except.ok () ∧
        (openaiStream chunks cb).snd = chunks.filterMap oaiEmit ∧
        (∀ s ∈ (openaiStream chunks cb).snd, s ≠ ([] : Str))) := by
  constructor
  · intro st stx chunks cb hok
    have hrun : streamChatCompletion (FetchStream.resp ⟨st, stx, some chunks, none⟩) cb
        = ⟨Except.ok (), decodeLoop cb chunks, true, true⟩ := by
      simp [streamChatCompletion, hok]
    rw [hrun]
    refine ⟨rfl, decodeLoop_eq cb chunks, ?_⟩
    intro j hj
    show jsTruthy j = true
    have hj2 : j ∈ decodeLoop cb chunks := hj
    rw [decodeLoop_eq] at hj2
    rcases List.mem_flatten.mp hj2 with ⟨l, hl, hjl⟩
    rcases List.mem_map.mp hl with ⟨ch, _, rfl⟩
    rcases List.mem_filterMap.mp hjl with ⟨line, _, hline⟩
    exact processLine_truthy hline
  · intro chunks cb hcb
    rw [openaiStream_pure chunks cb hcb]
    refine ⟨rfl, rfl, ?_⟩
    intro s hs
    rcases List.mem_filterMap.mp hs with ⟨c, _, hc⟩
    exact oaiEmit_nonempty hc

/-- Witness for C6 at zero-fragment streams on both adapters. -/
theorem c6_witness :
    responseOk 200 = true ∧
    ((streamChatCompletion (FetchStream.resp ⟨200, "OK".data, some [], none⟩) cbNone).result
        = Except.ok () ∧
     (streamChatCompletion (FetchStream.resp ⟨200, "OK".data, some [], none⟩) cbNone).trace
        = (([] : List Str).map fun ch => (candidateLines ch).filterMap processLine).flatten ∧
     (∀ j ∈ (streamChatCompletion
          (FetchStream.resp ⟨200, "OK".data, some [], none⟩) cbNone).trace,
        jsTruthy j = true)) ∧
    ((openaiStream [] cbStrNone).fst = Except.ok () ∧
     (openaiStream [] cbStrNone).snd = ([] : List OAIChunk).filterMap oaiEmit ∧
     (∀ s ∈ (openaiStream [] cbStrNone).snd, s ≠ ([] : Str))) :=
  ⟨by decide,
   c6_fragment_discipline.1 200 ("OK".data) [] cbNone (by decide),
   c6_fragment_discipline.2 [] cbStrNone (fun _ => rfl)⟩

/-- C7: whenever the stream reader is acquired, it is released — the finally
block runs on the normal exit and on the error exit of the decode loop
alike. -/
theorem c7_reader_released (f : FetchStream) (cb : Json → Option JsErr)
    (h : (streamChatCompletion f cb).readerAcquired = true) :
    (streamChatCompletion f cb).readerReleased = true := by
  cases f with
  | netErr m => simp [streamChatCompletion] at h
  | resp r =>
    cases hok : responseOk r.status with
    | false => simp [streamChatCompletion, hok] at h
    | true =>
      cases hb : r.body with
      | none => simp [streamChatCompletion, hok, hb] at h
      | some chunks => simp [streamChatCompletion, hok, hb]

/-- Witness for C7 at a healthy streaming response. -/
theorem c7_witness :
    (streamChatCompletion
        (FetchStream.resp ⟨200, "OK".data, some [], none⟩) cbNone).readerAcquired = true ∧
    (streamChatCompletion
        (FetchStream.resp ⟨200, "OK".data, some [], none⟩) cbNone).readerReleased = true :=
  ⟨rfl, c7_reader_released (FetchStream.resp ⟨200, "OK".data, some [], none⟩) cbNone rfl⟩

/-- C8: the streaming call rejects before entering the decode loop — with the
BackendError carrying the status text on a non-2xx status, and with the
ProtocolError on a null body — and in both cases the callback is never
invoked and the reader is never acquired. -/
theorem c8_reject_before_decode :
    (∀ (r : StreamResp) (cb : Json → Option JsErr), responseOk r.status = false →
        streamChatCompletion (FetchStream.resp r) cb
          = ⟨Except.error ⟨false, "Ollama API error: ".data ++ r.statusText⟩,
             [], false, false⟩) ∧
    (∀ (st : Nat) (stx : Str) (re : Option JsErr) (cb : Json → Option JsErr),
        responseOk st = true →
        streamChatCompletion (FetchStream.resp ⟨st, stx, none, re⟩) cb
          = ⟨Except.error ⟨false, "Response body is null".data⟩, [], false, false⟩) := by
  constructor
  · intro r cb h
    simp [streamChatCompletion, h, ollamaCatch]
  · intro st stx re cb h
    simp [streamChatCompletion, h, ollamaCatch]

/-- Witness for C8 at a 500 status and at a null body. -/
theorem c8_witness :
    responseOk 500 = false ∧ responseOk 200 = true ∧
    streamChatCompletion
        (FetchStream.resp ⟨500, "Internal Server Error".data, some [], none⟩) cbNone
      = ⟨Except.error ⟨false, "Ollama API error: ".data ++ "Internal Server Error".data⟩,
         [], false, false⟩ ∧
    streamChatCompletion (FetchStream.resp ⟨200, "OK".data, none, none⟩) cbNone
      = ⟨Except.error ⟨false, "Response body is null".data⟩, [], false, false⟩ :=
  ⟨by decide, by decide,
   c8_reject_before_decode.1 ⟨500, "Internal Server Error".data, some [], none⟩ cbNone
     (by decide),
   c8_reject_before_decode.2 200 ("OK".data) none cbNone (by decide)⟩

/-- C9: provider identity and selected model are fixed at construction: no
operation mutates the instance, so getProviderName and getModel agree before
and after every operation on both providers. -/
theorem c9_identity_stable :
    (∀ (p : OllamaProvider) (f : FetchText),
        (p.listModelsCall f).snd.getProviderName = p.getProviderName ∧
        (p.listModelsCall f).snd.getModel = p.getModel ∧
        (p.generateCall f).snd.getProviderName = p.getProviderName ∧
        (p.generateCall f).snd.getModel = p.getModel ∧
        (p.listModelsCall f).snd = p ∧ (p.generateCall f).snd = p) ∧
    (∀ (p : OllamaProvider) (f : FetchStream) (cb : Json → Option JsErr),
        (p.streamCall f cb).snd.getProviderName = p.getProviderName ∧
        (p.streamCall f cb).snd.getModel = p.getModel ∧
        (p.streamCall f cb).snd = p) ∧
    (∀ (q : OpenAIProvider) (resp : OAIResponse),
        (q.generateCall resp).snd.getProviderName = q.getProviderName ∧
        (q.generateCall resp).snd.getModel = q.getModel ∧
        (q.generateCall resp).snd = q) ∧
    (∀ (q : OpenAIProvider) (chunks : List OAIChunk) (cb : Str → Option JsErr),
        (q.streamCall chunks cb).snd.getProviderName = q.getProviderName ∧
        (q.streamCall chunks cb).snd.getModel = q.getModel ∧
        (q.streamCall chunks cb).snd = q) :=
  ⟨fun _ _ => ⟨rfl, rfl, rfl, rfl, rfl, rfl⟩,
   fun _ _ _ => ⟨rfl, rfl, rfl⟩,
   fun _ _ => ⟨rfl, rfl, rfl⟩,
   fun _ _ _ => ⟨rfl, rfl, rfl⟩⟩

/-- C10 (corrected): a TypeError thrown by the consumer's onFragment is not
replaced by the ConnectionError: it is caught by the same per-line catch that
swallows parse errors, the stream continues — the second fragment is still
delivered — and the call resolves successfully. -/
theorem c10_counterexample :
    (streamChatCompletion
        (FetchStream.resp ⟨200, "OK".data, some [joinLines [exLine1, exLine2]], none⟩)
        cbThrowHel).result = Except.ok () ∧
    (streamChatCompletion
        (FetchStream.resp ⟨200, "OK".data, some [joinLines [exLine1, exLine2]], none⟩)
        cbThrowHel).trace = [Json.str "Hel".data, Json.str "lo".data] ∧
    cbThrowHel (Json.str "Hel".data) = some ⟨true, "boom".data⟩ ∧
    (Except.ok () : Except JsErr Unit) ≠ Except.error connectionError := by
  refine ⟨rfl, rfl, rfl, by simp⟩

/-- C10 (amended): a TypeError from the transport — a rejected fetch, or a
body-read failure — is replaced by the generic ConnectionError, discarding
the original error, in both generateCompletion and streamCompletion; an
error thrown by the consumer's onFragment, by contrast, never influences the
result or the delivered fragments. -/
theorem c10_typeerror_conversion :
    (∀ m, generateChatCompletion (FetchText.netErr m) = Except.error connectionError) ∧
    (∀ m cb, (streamChatCompletion (FetchStream.netErr m) cb).result
        = Except.error connectionError) ∧
    (∀ (st : Nat) (stx : Str) (chunks : List Str) (cb : Json → Option JsErr) (m : Str),
        responseOk st = true →
        (streamChatCompletion
            (FetchStream.resp ⟨st, stx, some chunks, some ⟨true, m⟩⟩) cb).result
          = Except.error connectionError) ∧
    (∀ (f : FetchStream) (cb cb2 : Json → Option JsErr),
        (streamChatCompletion f cb).result = (streamChatCompletion f cb2).result ∧
        (streamChatCompletion f cb).trace = (streamChatCompletion f cb2).trace) := by
  refine ⟨fun m => rfl, fun m cb => rfl, fun st stx chunks cb m h => ?_, fun f cb cb2 => ?_⟩
  · simp [streamChatCompletion, h, ollamaCatch]
  · cases f with
    | netErr m => exact ⟨rfl, rfl⟩
    | resp r =>
      cases hok : responseOk r.status with
      | false => simp [streamChatCompletion, hok]
      | true =>
        cases hb : r.body with
        | none => simp [streamChatCompletion, hok, hb]
        | some chunks =>
          simp [streamChatCompletion, hok, hb, decodeLoop_eq]

/-- Witness for C10 (amended) at a read failure that is a TypeError. -/
theorem c10_witness :
    responseOk 200 = true ∧
    (streamChatCompletion
        (FetchStream.resp ⟨200, "OK".data, some [], some ⟨true, "socket reset".data⟩⟩)
        cbNone).result = Except.error connectionError :=
  ⟨by decide,
   c10_typeerror_conversion.2.2.1 200 ("OK".data) [] cbNone ("socket reset".data)
     (by decide)⟩
